import Mathlib

/-!
Shallow embedding of the request admission and threat-control gateway of
`src/api/app.py` (the B0B dashboard API).  Python dictionaries are modelled
extensionally as functions (`String → Option Nat` for `blocked_ips`,
`String → Nat` for the `defaultdict(int)` `violation_counts`), the audit list
`request_log` as a Lean `List`, and wall-clock time (`time.time()`) as a `Nat`
parameter threaded through every operation.  Flask's request/response objects
are modelled by the fields the gateway actually reads and writes.
-/

namespace B0B

/-- An entry of the `request_log` audit list, as built by
`log_security_event`: timestamp, event kind, ip, free-text details, and the
optional violation count at the time of the event. -/
structure AuditEntry where
  timestamp : Nat
  event : String
  ip : String
  details : String
  violation_count : Option Nat

/-- An HTTP response: status code, the JSON body modelled as an association
list of string fields (`jsonify({...})`), and the header map modelled as a
function from header name to optional value. -/
structure Response where
  status : Nat
  body : List (String × String)
  headers : String → Option String

/-- The module-level mutable security state of `app.py`:
`blocked_ips` (ip ↦ block-expiry timestamp), `violation_counts`
(a `defaultdict(int)`), and `request_log`. -/
structure SecState where
  blocked_ips : String → Option Nat
  violation_counts : String → Nat
  request_log : List AuditEntry

/-- The initial module state: `blocked_ips = {}`,
`violation_counts = defaultdict(int)`, `request_log = []`. -/
def initState : SecState :=
  { blocked_ips := fun _ => none
    violation_counts := fun _ => 0
    request_log := [] }

/-- `SecurityConfig.BLOCK_THRESHOLD = 10`. -/
def BLOCK_THRESHOLD : Nat := 10

/-- `SecurityConfig.BLOCK_DURATION = 3600`. -/
def BLOCK_DURATION : Nat := 3600

/-- `SecurityConfig.HONEYPOT_PATHS`. -/
def HONEYPOT_PATHS : List String :=
  ["/admin", "/wp-admin", "/phpmyadmin", "/.env",
   "/config", "/backup", "/.git", "/api/admin",
   "/login", "/wp-login.php", "/administrator"]

/-- `is_ip_blocked(ip)`: if the ip has an entry in `blocked_ips` and the
current time is before it, return `True`; on an expired entry delete it, set
`violation_counts[ip] = 0` and return `False`; return `False` otherwise.
The returned pair is (result, post-call state). -/
def is_ip_blocked (now : Nat) (ip : String) (s : SecState) : Bool × SecState :=
  match s.blocked_ips ip with
  | some untilT =>
      if now < untilT then (true, s)
      else
        (false,
          { s with
            blocked_ips := Function.update s.blocked_ips ip none
            violation_counts := Function.update s.violation_counts ip 0 })
  | none => (false, s)

/-- `log_security_event(...)`: append the entry to `request_log`, then keep
the log bounded by popping index 0 when the length exceeds 10000. -/
def log_security_event (now : Nat) (event ip details : String)
    (count : Option Nat) (log : List AuditEntry) : List AuditEntry :=
  let log2 := log ++ [{ timestamp := now, event := event, ip := ip
                        details := details, violation_count := count }]
  if log2.length > 10000 then log2.drop 1 else log2

/-- `record_violation(ip, reason)`: increment `violation_counts[ip]`, log a
`VIOLATION` event, and if the count has reached `BLOCK_THRESHOLD`, set
`blocked_ips[ip] = now + BLOCK_DURATION`, log an `IP_BLOCKED` event and
return `True`; otherwise return `False`.  Pair = (result, post-call state). -/
def record_violation (now : Nat) (ip reason : String) (s : SecState) :
    Bool × SecState :=
  let vc := s.violation_counts ip + 1
  let s1 : SecState :=
    { s with
      violation_counts := Function.update s.violation_counts ip vc
      request_log := log_security_event now "VIOLATION" ip reason (some vc)
        s.request_log }
  if BLOCK_THRESHOLD ≤ vc then
    (true,
      { s1 with
        blocked_ips := Function.update s1.blocked_ips ip
          (some (now + BLOCK_DURATION))
        request_log := log_security_event now "IP_BLOCKED" ip
          ("Blocked for " ++ toString BLOCK_DURATION ++ "s") (some vc)
          s1.request_log })
  else (false, s1)

/-- Python's `str.lower()` as applied to a request path: the character-wise
lowercase map (request paths are ASCII, where this coincides with the
library's full case mapping). -/
def pyLower (t : String) : String :=
  String.mk (t.data.map Char.toLower)

/-- The `@app.before_request` hook `security_checkpoint()`: first the
blocklist gate (`is_ip_blocked`), then the honeypot check
(`request.path.lower() in HONEYPOT_PATHS`), otherwise an audit `REQUEST`
entry.  Returns `some response` to short-circuit (Flask skips the route
handler when a before-request hook returns a response) or `none` to let the
request continue, paired with the post-hook state. -/
def security_checkpoint (now : Nat) (ip method path : String) (s : SecState) :
    Option Response × SecState :=
  let chk := is_ip_blocked now ip s
  if chk.1 then
    (some { status := 403
            body := [("error", "Access denied"), ("code", "IP_BLOCKED")]
            headers := fun _ => none },
     { chk.2 with
       request_log := log_security_event now "BLOCKED_REQUEST" ip path none
         chk.2.request_log })
  else if HONEYPOT_PATHS.contains (pyLower path) then
    let rv := record_violation now ip ("Honeypot triggered: " ++ path) chk.2
    (some { status := 401
            body := [("error", "Unauthorized"),
                     ("hint", "Try /api/v2/admin with valid credentials")]
            headers := fun _ => none },
     rv.2)
  else
    (none,
     { chk.2 with
       request_log := log_security_event now "REQUEST" ip
         (method ++ " " ++ path) none chk.2.request_log })

/-- `response.headers[k] = v` on a werkzeug header map: replace-or-insert. -/
def setHeader (r : Response) (k v : String) : Response :=
  { r with headers := Function.update r.headers k (some v) }

/-- Read a response header. -/
def getHeader (r : Response) (k : String) : Option String :=
  r.headers k

/-- The `@app.after_request` hook `add_security_headers(response)`: sets the
fixed defensive header set on the given response and returns it. -/
def add_security_headers (response : Response) : Response :=
  let response := setHeader response "X-Content-Type-Options" "nosniff"
  let response := setHeader response "X-Frame-Options" "DENY"
  let response := setHeader response "X-XSS-Protection" "1; mode=block"
  let response := setHeader response "Strict-Transport-Security"
    "max-age=31536000; includeSubDomains"
  let response := setHeader response "Content-Security-Policy"
    "default-src \x27none\x27; frame-ancestors \x27none\x27"
  let response := setHeader response "Referrer-Policy"
    "strict-origin-when-cross-origin"
  let response := setHeader response "Server" "B0B"
  let response := setHeader response "Cache-Control"
    "no-store, no-cache, must-revalidate, private"
  let response := setHeader response "Pragma" "no-cache"
  response

/-- Flask's request lifecycle for this app, as configured in `app.py`:
run the before-request hook `security_checkpoint`; if it returns a response,
skip everything downstream; otherwise run the downstream request handling
(`dispatch` stands for the rate-limiter check plus route dispatch, i.e.
everything that happens after the checkpoint lets the request through);
finally the after-request hook `add_security_headers` is applied to whichever
response is produced. -/
def handle_request (now : Nat) (ip method path : String)
    (dispatch : SecState → Response × SecState) (s : SecState) :
    Response × SecState :=
  match security_checkpoint now ip method path s with
  | (some resp, s1) => (add_security_headers resp, s1)
  | (none, s1) =>
      let d := dispatch s1
      (add_security_headers d.1, d.2)

/-- Python truthiness of an optional string header/env value:
`not v` is true exactly when the value is `None` or the empty string. -/
def pyFalsy (v : Option String) : Bool :=
  match v with
  | none => true
  | some t => t == ""

/-- `constant_time_compare(a, b)`: functional result of
`secrets.compare_digest(str(a), str(b))`, i.e. string equality.  Only the
value is modelled here; the timing behaviour of the library call is not a
functional property of the embedding. -/
def constant_time_compare (a b : String) : Bool :=
  a == b

/-- The `require_api_key` decorator around a route handler `f`.
`enforce` is `SecurityConfig.REQUIRE_API_KEY`, `api_key` the value of the
`X-B0B-API-Key` request header (`none` when absent), `valid_key` the
`B0B_API_KEY` environment value (`none` when unset).  Mirrors the Python
truthiness tests `if not api_key` and `if not valid_key or not
constant_time_compare(api_key, valid_key)`. -/
def require_api_key (enforce : Bool) (api_key valid_key : Option String)
    (now : Nat) (ip : String) (f : SecState → Response × SecState)
    (s : SecState) : Response × SecState :=
  if !enforce then f s
  else if pyFalsy api_key then
    let rv := record_violation now ip "Missing API key" s
    ({ status := 401
       body := [("error", "API key required"), ("code", "MISSING_KEY")]
       headers := fun _ => none }, rv.2)
  else if pyFalsy valid_key
      || !(constant_time_compare (api_key.getD "") (valid_key.getD "")) then
    let rv := record_violation now ip "Invalid API key" s
    ({ status := 401
       body := [("error", "Invalid API key"), ("code", "INVALID_KEY")]
       headers := fun _ => none }, rv.2)
  else f s

/-- The `/api/internal/security/stats` handler `security_stats()`.
`internal_key` is the `X-Internal-Key` request header, `valid_key` the
`INTERNAL_API_KEY` environment value.  Mirrors `if not valid_key or not
constant_time_compare(internal_key or '', valid_key)`, which returns a plain
`{'error': 'Unauthorized'}` 401 and leaves the security state untouched.
The 200 branch's statistics payload is not consulted by any property below
and its body is left empty. -/
def security_stats (internal_key valid_key : Option String) (s : SecState) :
    Response × SecState :=
  if pyFalsy valid_key
      || !(constant_time_compare (internal_key.getD "") (valid_key.getD "")) then
    ({ status := 401
       body := [("error", "Unauthorized")]
       headers := fun _ => none }, s)
  else
    ({ status := 200, body := [], headers := fun _ => none }, s)

/-- A Python value reaching `sanitize_input`: a string or a non-string
(represented here by the primitives the API's JSON bodies can carry). -/
inductive PyValue where
  | str (s : String)
  | int (n : Int)
  | bool (b : Bool)

/-- Python `str(...)` on a `PyValue`. -/
def pyStr : PyValue → String
  | .str s => s
  | .int n => toString n
  | .bool b => if b then "True" else "False"

/-- Tag-stripping scanner: outside a tag (`false` state) every character is
kept except `<`, which opens a tag; inside a tag (`true` state) characters
are dropped up to and including the closing `>` (an unterminated tag is
dropped to the end of the input). -/
def stripTagsAux : Bool → List Char → List Char
  | _, [] => []
  | false, c :: rest =>
      if c = '<' then stripTagsAux true rest else c :: stripTagsAux false rest
  | true, c :: rest =>
      if c = '>' then stripTagsAux false rest else stripTagsAux true rest

/-- Model of the library call `bleach.clean(text, tags=[], strip=True)`:
with an empty allowed-tag list and `strip=True` bleach removes every tag
from the input and keeps the remaining text, so the result contains no raw
`<`.  Modelled as the tag-stripping scan above. -/
def bleach_clean (t : String) : String :=
  String.mk (stripTagsAux false t.data)

/-- `sanitize_input(text, max_length=None)`: non-string input is returned as
`str(text)` immediately; string input is cleaned with bleach and, when
`max_length` is truthy (not `None` and not `0`), sliced to `max_length`. -/
def sanitize_input (text : PyValue) (max_length : Option Nat) : String :=
  match text with
  | .str t =>
      let cleaned := bleach_clean t
      match max_length with
      | some m => if m ≠ 0 then String.mk (cleaned.data.take m) else cleaned
      | none => cleaned
  | v => pyStr v

/-- A sequence of `record_violation` calls for one identity, one per
(time, reason) pair, keeping only the state (the Python call sites of
interest discard the boolean when chaining). -/
def record_seq (ip : String) (evs : List (Nat × String)) (s : SecState) :
    SecState :=
  evs.foldl (fun st e => (record_violation e.1 ip e.2 st).2) s

theorem record_violation_count (now : Nat) (ip reason : String) (s : SecState) :
    (record_violation now ip reason s).2.violation_counts ip =
      s.violation_counts ip + 1 := by
  unfold record_violation
  dsimp only
  split <;> simp

theorem record_violation_below (now : Nat) (ip reason : String) (s : SecState)
    (h : s.violation_counts ip + 1 < BLOCK_THRESHOLD) :
    (record_violation now ip reason s).2.blocked_ips = s.blocked_ips := by
  unfold record_violation
  dsimp only
  rw [if_neg (by omega)]

theorem record_violation_trip (now : Nat) (ip reason : String) (s : SecState)
    (h : BLOCK_THRESHOLD ≤ s.violation_counts ip + 1) :
    (record_violation now ip reason s).1 = true ∧
      (record_violation now ip reason s).2.blocked_ips ip =
        some (now + BLOCK_DURATION) := by
  unfold record_violation
  dsimp only
  rw [if_pos (by omega)]
  simp

theorem record_seq_count (ip : String) (evs : List (Nat × String)) (s : SecState) :
    (record_seq ip evs s).violation_counts ip =
      s.violation_counts ip + evs.length := by
  induction evs generalizing s with
  | nil => simp [record_seq]
  | cons e rest ih =>
      have h1 := record_violation_count e.1 ip e.2 s
      calc (record_seq ip (e :: rest) s).violation_counts ip
          = (record_seq ip rest (record_violation e.1 ip e.2 s).2).violation_counts ip := by
            simp [record_seq]
        _ = (record_violation e.1 ip e.2 s).2.violation_counts ip + rest.length := ih _
        _ = s.violation_counts ip + (e :: rest).length := by
            rw [h1]; simp; omega

theorem record_seq_below (ip : String) (evs : List (Nat × String)) (s : SecState)
    (h : s.violation_counts ip + evs.length < BLOCK_THRESHOLD) :
    (record_seq ip evs s).blocked_ips = s.blocked_ips := by
  induction evs generalizing s with
  | nil => simp [record_seq]
  | cons e rest ih =>
      have h1 : s.violation_counts ip + 1 < BLOCK_THRESHOLD := by
        simp at h; omega
      have h2 := record_violation_below e.1 ip e.2 s h1
      have h3 : (record_violation e.1 ip e.2 s).2.violation_counts ip +
          rest.length < BLOCK_THRESHOLD := by
        rw [record_violation_count]; simp at h; omega
      calc (record_seq ip (e :: rest) s).blocked_ips
          = (record_seq ip rest (record_violation e.1 ip e.2 s).2).blocked_ips := by
            simp [record_seq]
        _ = (record_violation e.1 ip e.2 s).2.blocked_ips := ih _ h3
        _ = s.blocked_ips := h2

theorem log_security_event_getLast (now : Nat) (event ip details : String)
    (count : Option Nat) (log : List AuditEntry) :
    (log_security_event now event ip details count log).getLast? =
      some { timestamp := now, event := event, ip := ip, details := details
             violation_count := count } := by
  unfold log_security_event
  dsimp only
  split
  · next h =>
      have hne : log ≠ [] := by
        intro hnil; subst hnil; simp at h
      rw [List.drop_append_of_le_length (by
        cases log with
        | nil => exact absurd rfl hne
        | cons a l => simp)]
      exact List.getLast?_concat _
  · exact List.getLast?_concat _

theorem is_ip_blocked_true_state (now : Nat) (ip : String) (s : SecState)
    (h : (is_ip_blocked now ip s).1 = true) :
    (is_ip_blocked now ip s).2 = s := by
  cases hb : s.blocked_ips ip with
  | none => simp [is_ip_blocked, hb] at h
  | some u =>
      by_cases hlt : now < u
      · simp [is_ip_blocked, hb, hlt]
      · simp [is_ip_blocked, hb, hlt] at h

theorem stripTagsAux_no_lt (cs : List Char) :
    ∀ b : Bool, '<' ∉ stripTagsAux b cs := by
  induction cs with
  | nil => intro b; cases b <;> simp [stripTagsAux]
  | cons c rest ih =>
      intro b
      cases b with
      | false =>
          by_cases hc : c = '<'
          · simpa [stripTagsAux, hc] using ih true
          · simp only [stripTagsAux, if_neg hc, List.mem_cons]
            rintro (h | h)
            · exact hc h.symm
            · exact ih false h
      | true =>
          by_cases hc : c = '>'
          · simpa [stripTagsAux, hc] using ih false
          · simpa [stripTagsAux, hc] using ih true

theorem add_security_headers_all (r : Response) :
    getHeader (add_security_headers r) "X-Content-Type-Options" = some "nosniff" ∧
    getHeader (add_security_headers r) "X-Frame-Options" = some "DENY" ∧
    getHeader (add_security_headers r) "X-XSS-Protection" = some "1; mode=block" ∧
    getHeader (add_security_headers r) "Strict-Transport-Security" =
      some "max-age=31536000; includeSubDomains" ∧
    getHeader (add_security_headers r) "Content-Security-Policy" =
      some "default-src \x27none\x27; frame-ancestors \x27none\x27" ∧
    getHeader (add_security_headers r) "Referrer-Policy" =
      some "strict-origin-when-cross-origin" ∧
    getHeader (add_security_headers r) "Server" = some "B0B" ∧
    getHeader (add_security_headers r) "Cache-Control" =
      some "no-store, no-cache, must-revalidate, private" ∧
    getHeader (add_security_headers r) "Pragma" = some "no-cache" :=
  ⟨rfl, rfl, rfl, rfl, rfl, rfl, rfl, rfl, rfl⟩

/-- C6: every outgoing response — on every path through the pipeline,
whatever the before-request checkpoint decides and whatever response the
downstream dispatch (success, rate-limit, error handler, …) produces —
carries the complete fixed set of defensive headers set by
`add_security_headers`. -/
theorem c6_every_response_hardened (now : Nat) (ip method path : String)
    (dispatch : SecState → Response × SecState) (s : SecState) :
    getHeader (handle_request now ip method path dispatch s).1
      "X-Content-Type-Options" = some "nosniff" ∧
    getHeader (handle_request now ip method path dispatch s).1
      "X-Frame-Options" = some "DENY" ∧
    getHeader (handle_request now ip method path dispatch s).1
      "X-XSS-Protection" = some "1; mode=block" ∧
    getHeader (handle_request now ip method path dispatch s).1
      "Strict-Transport-Security" = some "max-age=31536000; includeSubDomains" ∧
    getHeader (handle_request now ip method path dispatch s).1
      "Content-Security-Policy" =
      some "default-src \x27none\x27; frame-ancestors \x27none\x27" ∧
    getHeader (handle_request now ip method path dispatch s).1
      "Referrer-Policy" = some "strict-origin-when-cross-origin" ∧
    getHeader (handle_request now ip method path dispatch s).1
      "Server" = some "B0B" ∧
    getHeader (handle_request now ip method path dispatch s).1
      "Cache-Control" = some "no-store, no-cache, must-revalidate, private" ∧
    getHeader (handle_request now ip method path dispatch s).1
      "Pragma" = some "no-cache" := by
  unfold handle_request
  rcases hsc : security_checkpoint now ip method path s with ⟨o, s1⟩
  cases o with
  | none => exact add_security_headers_all _
  | some r => exact add_security_headers_all _

/-- C7: the audit log is capacity-bounded at 10000 entries: an append to a
log within capacity stays within capacity, and an append to a log exactly at
capacity evicts exactly the oldest entry, keeps the rest in insertion order
with the new entry at the end, and leaves the length at capacity. -/
theorem c7_audit_log_bounded (now : Nat) (event ip details : String)
    (count : Option Nat) (log : List AuditEntry) (h : log.length ≤ 10000) :
    (log_security_event now event ip details count log).length ≤ 10000 ∧
    (log.length = 10000 →
      log_security_event now event ip details count log =
        log.drop 1 ++
          [{ timestamp := now, event := event, ip := ip, details := details
             violation_count := count }] ∧
      (log_security_event now event ip details count log).length = 10000) := by
  unfold log_security_event
  dsimp only
  generalize ({ timestamp := now, event := event, ip := ip, details := details
                violation_count := count } : AuditEntry) = e
  by_cases hl : log.length = 10000
  · have hc : (log ++ [e]).length > 10000 := by simp [hl]
    rw [if_pos hc]
    have hd : (log ++ [e]).drop 1 = log.drop 1 ++ [e] :=
      List.drop_append_of_le_length (by omega)
    rw [hd]
    refine ⟨by simp; omega, fun _ => ⟨rfl, by simp; omega⟩⟩
  · have hc : ¬ (log ++ [e]).length > 10000 := by simp; omega
    rw [if_neg hc]
    exact ⟨by simp; omega, fun hx => absurd hx hl⟩

theorem c7_audit_log_bounded_witness :
    (List.replicate 10000
        ({ timestamp := 0, event := "REQUEST", ip := "1.2.3.4", details := "x"
           violation_count := none } : AuditEntry)).length ≤ 10000 ∧
    ((log_security_event 7 "VIOLATION" "1.2.3.4" "probe" (some 1)
        (List.replicate 10000
          { timestamp := 0, event := "REQUEST", ip := "1.2.3.4", details := "x"
            violation_count := none })).length ≤ 10000 ∧
     ((List.replicate 10000
          ({ timestamp := 0, event := "REQUEST", ip := "1.2.3.4", details := "x"
             violation_count := none } : AuditEntry)).length = 10000 →
       log_security_event 7 "VIOLATION" "1.2.3.4" "probe" (some 1)
          (List.replicate 10000
            { timestamp := 0, event := "REQUEST", ip := "1.2.3.4", details := "x"
              violation_count := none }) =
         (List.replicate 10000
            ({ timestamp := 0, event := "REQUEST", ip := "1.2.3.4", details := "x"
               violation_count := none } : AuditEntry)).drop 1 ++
           [{ timestamp := 7, event := "VIOLATION", ip := "1.2.3.4"
              details := "probe", violation_count := some 1 }] ∧
       (log_security_event 7 "VIOLATION" "1.2.3.4" "probe" (some 1)
          (List.replicate 10000
            { timestamp := 0, event := "REQUEST", ip := "1.2.3.4", details := "x"
              violation_count := none })).length = 10000)) :=
  ⟨by rw [List.length_replicate],
   c7_audit_log_bounded 7 "VIOLATION" "1.2.3.4" "probe" (some 1) _
     (by rw [List.length_replicate])⟩

/-- C5 counterexample: `sanitize_input` returns non-string input as
`str(text)` without applying the length ceiling (nor the tag stripping):
the integer `123456` with a configured maximum length of 3 comes back as the
6-character string `"123456"`, refuting the claim that the returned string
has length at most the configured maximum for every input value. -/
theorem c5_counterexample :
    sanitize_input (PyValue.int 123456) (some 3) = "123456" ∧
      ¬ (sanitize_input (PyValue.int 123456) (some 3)).length ≤ 3 := by
  exact ⟨rfl, by decide⟩

/-- C5 amended: for string input the sanitizer never raises, returns a string
containing no tag opener at all, and respects a configured non-zero maximum
length; non-string input is returned as its textual representation as-is,
without stripping or truncation. -/
theorem c5_sanitizer_amended (t : String) (m : Nat) (hm : m ≠ 0)
    (n : Int) (b : Bool) (ml : Option Nat) :
    '<' ∉ (sanitize_input (PyValue.str t) none).data ∧
    '<' ∉ (sanitize_input (PyValue.str t) (some m)).data ∧
    (sanitize_input (PyValue.str t) (some m)).length ≤ m ∧
    sanitize_input (PyValue.int n) ml = toString n ∧
    sanitize_input (PyValue.bool b) ml = pyStr (PyValue.bool b) := by
  refine ⟨?_, ?_, ?_, rfl, rfl⟩
  · exact stripTagsAux_no_lt t.data false
  · show '<' ∉ (if m ≠ 0 then String.mk ((bleach_clean t).data.take m)
        else bleach_clean t).data
    rw [if_pos hm]
    intro hmem
    exact stripTagsAux_no_lt t.data false (List.take_subset _ _ hmem)
  · show (if m ≠ 0 then String.mk ((bleach_clean t).data.take m)
        else bleach_clean t).length ≤ m
    rw [if_pos hm]
    show ((bleach_clean t).data.take m).length ≤ m
    exact List.length_take_le _ _

theorem c5_sanitizer_amended_witness :
    (5 : Nat) ≠ 0 ∧
    ('<' ∉ (sanitize_input (PyValue.str "a<script>x</script>b") none).data ∧
     '<' ∉ (sanitize_input (PyValue.str "a<script>x</script>b") (some 5)).data ∧
     (sanitize_input (PyValue.str "a<script>x</script>b") (some 5)).length ≤ 5 ∧
     sanitize_input (PyValue.int 7) none = toString (7 : Int) ∧
     sanitize_input (PyValue.bool true) none = pyStr (PyValue.bool true)) :=
  ⟨by decide, c5_sanitizer_amended "a<script>x</script>b" 5 (by decide) 7 true none⟩

theorem security_checkpoint_blocked (now : Nat) (ip method path : String)
    (s : SecState) (hb : (is_ip_blocked now ip s).1 = true) :
    security_checkpoint now ip method path s =
      (some { status := 403
              body := [("error", "Access denied"), ("code", "IP_BLOCKED")]
              headers := fun _ => none },
       { s with
         request_log :=
           log_security_event now "BLOCKED_REQUEST" ip path none s.request_log }) := by
  have h2 := is_ip_blocked_true_state now ip s hb
  simp [security_checkpoint, hb, h2]

theorem security_checkpoint_honeypot (now : Nat) (ip method path : String)
    (s : SecState) (hnb : (is_ip_blocked now ip s).1 = false)
    (hc : pyLower path ∈ HONEYPOT_PATHS) :
    security_checkpoint now ip method path s =
      (some { status := 401
              body := [("error", "Unauthorized"),
                       ("hint", "Try /api/v2/admin with valid credentials")]
              headers := fun _ => none },
       (record_violation now ip ("Honeypot triggered: " ++ path)
          (is_ip_blocked now ip s).2).2) := by
  simp [security_checkpoint, hnb, hc]

/-- C2: a request from a not-currently-blocked identity whose lowercased path
is in the honeypot set gets a 401 response, and exactly one violation is
added on top of the state left by the blocklist-gate check; the outcome is
the same whatever the HTTP method and whatever downstream dispatch (route
table, rate limiter, body handling) would have done, because the honeypot
check short-circuits inside the before-request hook. -/
theorem c2_honeypot_trap (now : Nat) (ip method method2 path : String)
    (dispatch dispatch2 : SecState → Response × SecState) (s : SecState)
    (hnb : (is_ip_blocked now ip s).1 = false)
    (hp : pyLower path ∈ HONEYPOT_PATHS) :
    (handle_request now ip method path dispatch s).1.status = 401 ∧
    (handle_request now ip method path dispatch s).2.violation_counts ip =
      (is_ip_blocked now ip s).2.violation_counts ip + 1 ∧
    handle_request now ip method2 path dispatch2 s =
      handle_request now ip method path dispatch s := by
  have hsc := security_checkpoint_honeypot now ip method path s hnb hp
  have hsc2 := security_checkpoint_honeypot now ip method2 path s hnb hp
  refine ⟨?_, ?_, ?_⟩
  · simp only [handle_request, hsc]; rfl
  · simp only [handle_request, hsc]
    exact record_violation_count now ip _ _
  · simp only [handle_request, hsc, hsc2]

theorem c2_honeypot_trap_witness :
    (is_ip_blocked 3 "1.2.3.4" initState).1 = false ∧
    pyLower "/Admin" ∈ HONEYPOT_PATHS ∧
    ((handle_request 3 "1.2.3.4" "POST" "/Admin"
        (fun st => ({ status := 200, body := [], headers := fun _ => none }, st))
        initState).1.status = 401 ∧
     (handle_request 3 "1.2.3.4" "POST" "/Admin"
        (fun st => ({ status := 200, body := [], headers := fun _ => none }, st))
        initState).2.violation_counts "1.2.3.4" =
       (is_ip_blocked 3 "1.2.3.4" initState).2.violation_counts "1.2.3.4" + 1 ∧
     handle_request 3 "1.2.3.4" "GET" "/Admin"
        (fun st => ({ status := 404, body := [], headers := fun _ => none }, st))
        initState =
       handle_request 3 "1.2.3.4" "POST" "/Admin"
        (fun st => ({ status := 200, body := [], headers := fun _ => none }, st))
        initState) :=
  ⟨by decide, by decide,
   c2_honeypot_trap 3 "1.2.3.4" "POST" "GET" "/Admin"
     (fun st => ({ status := 200, body := [], headers := fun _ => none }, st))
     (fun st => ({ status := 404, body := [], headers := fun _ => none }, st))
     initState (by decide) (by decide)⟩

/-- C3: a request from a currently blocked identity is rejected by the
blocklist gate with a 403 carrying code `IP_BLOCKED`, an audit entry of kind
`BLOCKED_REQUEST` is appended, and nothing downstream runs: the violation
counts and block table are untouched and the outcome is independent of the
HTTP method and of whatever the downstream dispatch (honeypot aside, rate
limiter, route handlers) would have produced. -/
theorem c3_blocklist_gate (now : Nat) (ip method method2 path : String)
    (dispatch dispatch2 : SecState → Response × SecState) (s : SecState)
    (hb : (is_ip_blocked now ip s).1 = true) :
    (handle_request now ip method path dispatch s).1.status = 403 ∧
    (handle_request now ip method path dispatch s).1.body.lookup "code" =
      some "IP_BLOCKED" ∧
    (handle_request now ip method path dispatch s).2.request_log.getLast? =
      some { timestamp := now, event := "BLOCKED_REQUEST", ip := ip
             details := path, violation_count := none } ∧
    (handle_request now ip method path dispatch s).2.violation_counts =
      s.violation_counts ∧
    (handle_request now ip method path dispatch s).2.blocked_ips =
      s.blocked_ips ∧
    handle_request now ip method2 path dispatch2 s =
      handle_request now ip method path dispatch s := by
  have hsc := security_checkpoint_blocked now ip method path s hb
  have hsc2 := security_checkpoint_blocked now ip method2 path s hb
  refine ⟨?_, ?_, ?_, ?_, ?_, ?_⟩
  · simp only [handle_request, hsc]; rfl
  · simp only [handle_request, hsc]; rfl
  · simp only [handle_request, hsc]
    exact log_security_event_getLast now "BLOCKED_REQUEST" ip path none
      s.request_log
  · simp only [handle_request, hsc]
  · simp only [handle_request, hsc]
  · simp only [handle_request, hsc, hsc2]

theorem c3_blocklist_gate_witness :
    (is_ip_blocked 5 "6.6.6.6"
        { blocked_ips := fun i => if i = "6.6.6.6" then some 100 else none
          violation_counts := fun _ => 10
          request_log := [] }).1 = true ∧
    ((handle_request 5 "6.6.6.6" "POST" "/api/chat"
        (fun st => ({ status := 200, body := [], headers := fun _ => none }, st))
        { blocked_ips := fun i => if i = "6.6.6.6" then some 100 else none
          violation_counts := fun _ => 10
          request_log := [] }).1.status = 403 ∧
     (handle_request 5 "6.6.6.6" "POST" "/api/chat"
        (fun st => ({ status := 200, body := [], headers := fun _ => none }, st))
        { blocked_ips := fun i => if i = "6.6.6.6" then some 100 else none
          violation_counts := fun _ => 10
          request_log := [] }).1.body.lookup "code" = some "IP_BLOCKED" ∧
     (handle_request 5 "6.6.6.6" "POST" "/api/chat"
        (fun st => ({ status := 200, body := [], headers := fun _ => none }, st))
        { blocked_ips := fun i => if i = "6.6.6.6" then some 100 else none
          violation_counts := fun _ => 10
          request_log := [] }).2.request_log.getLast? =
       some { timestamp := 5, event := "BLOCKED_REQUEST", ip := "6.6.6.6"
              details := "/api/chat", violation_count := none } ∧
     (handle_request 5 "6.6.6.6" "POST" "/api/chat"
        (fun st => ({ status := 200, body := [], headers := fun _ => none }, st))
        { blocked_ips := fun i => if i = "6.6.6.6" then some 100 else none
          violation_counts := fun _ => 10
          request_log := [] }).2.violation_counts =
       ({ blocked_ips := fun i => if i = "6.6.6.6" then some 100 else none
          violation_counts := fun _ => 10
          request_log := [] } : SecState).violation_counts ∧
     (handle_request 5 "6.6.6.6" "POST" "/api/chat"
        (fun st => ({ status := 200, body := [], headers := fun _ => none }, st))
        { blocked_ips := fun i => if i = "6.6.6.6" then some 100 else none
          violation_counts := fun _ => 10
          request_log := [] }).2.blocked_ips =
       ({ blocked_ips := fun i => if i = "6.6.6.6" then some 100 else none
          violation_counts := fun _ => 10
          request_log := [] } : SecState).blocked_ips ∧
     handle_request 5 "6.6.6.6" "GET" "/api/chat"
        (fun st => ({ status := 404, body := [], headers := fun _ => none }, st))
        { blocked_ips := fun i => if i = "6.6.6.6" then some 100 else none
          violation_counts := fun _ => 10
          request_log := [] } =
       handle_request 5 "6.6.6.6" "POST" "/api/chat"
        (fun st => ({ status := 200, body := [], headers := fun _ => none }, st))
        { blocked_ips := fun i => if i = "6.6.6.6" then some 100 else none
          violation_counts := fun _ => 10
          request_log := [] }) :=
  ⟨by decide,
   c3_blocklist_gate 5 "6.6.6.6" "POST" "GET" "/api/chat"
     (fun st => ({ status := 200, body := [], headers := fun _ => none }, st))
     (fun st => ({ status := 404, body := [], headers := fun _ => none }, st))
     { blocked_ips := fun i => if i = "6.6.6.6" then some 100 else none
       violation_counts := fun _ => 10
       request_log := [] } (by decide)⟩

/-- C1: for an identity with no prior violations and no block entry, nine
recorded violations followed by a tenth (the threshold, `BLOCK_THRESHOLD =
10`) make that tenth call return `true` and set `blockedUntil` to the time of
the threshold-tripping violation plus `BLOCK_DURATION`; every `is_ip_blocked`
check strictly before that timestamp returns `true` and leaves the state
unchanged, and a check at or after it returns `false`, resets the identity's
violation count to 0 and removes the `blockedUntil` entry. -/
theorem c1_threshold_block_lifecycle (ip : String) (s0 : SecState)
    (evs : List (Nat × String)) (r10 : String) (t10 tA tB : Nat)
    (h0 : s0.violation_counts ip = 0) (_hb0 : s0.blocked_ips ip = none)
    (hlen : evs.length = BLOCK_THRESHOLD - 1)
    (hA : tA < t10 + BLOCK_DURATION) (hB : t10 + BLOCK_DURATION ≤ tB) :
    (record_violation t10 ip r10 (record_seq ip evs s0)).1 = true ∧
    (record_violation t10 ip r10 (record_seq ip evs s0)).2.blocked_ips ip =
      some (t10 + BLOCK_DURATION) ∧
    (is_ip_blocked tA ip
      (record_violation t10 ip r10 (record_seq ip evs s0)).2).1 = true ∧
    (is_ip_blocked tA ip
      (record_violation t10 ip r10 (record_seq ip evs s0)).2).2 =
      (record_violation t10 ip r10 (record_seq ip evs s0)).2 ∧
    (is_ip_blocked tB ip
      (record_violation t10 ip r10 (record_seq ip evs s0)).2).1 = false ∧
    (is_ip_blocked tB ip
      (record_violation t10 ip r10 (record_seq ip evs s0)).2).2.violation_counts
      ip = 0 ∧
    (is_ip_blocked tB ip
      (record_violation t10 ip r10 (record_seq ip evs s0)).2).2.blocked_ips
      ip = none := by
  have hcnt : (record_seq ip evs s0).violation_counts ip =
      BLOCK_THRESHOLD - 1 := by
    rw [record_seq_count, h0, hlen]; omega
  obtain ⟨hret, hblk⟩ :=
    record_violation_trip t10 ip r10 (record_seq ip evs s0)
      (by rw [hcnt]; decide)
  have hB' : ¬ tB < t10 + BLOCK_DURATION := by omega
  refine ⟨hret, hblk, ?_, ?_, ?_, ?_, ?_⟩
  · simp [is_ip_blocked, hblk, hA]
  · simp [is_ip_blocked, hblk, hA]
  · simp [is_ip_blocked, hblk, hB']
  · simp [is_ip_blocked, hblk, hB']
  · simp [is_ip_blocked, hblk, hB']

theorem c1_threshold_block_lifecycle_witness :
    (initState.violation_counts "9.9.9.9" = 0 ∧
     initState.blocked_ips "9.9.9.9" = none ∧
     ([(1, "h"), (2, "h"), (3, "h"), (4, "h"), (5, "h"), (6, "h"), (7, "h"),
       (8, "h"), (9, "h")] : List (Nat × String)).length =
       BLOCK_THRESHOLD - 1 ∧
     3000 < 10 + BLOCK_DURATION ∧ 10 + BLOCK_DURATION ≤ 3610) ∧
    ((record_violation 10 "9.9.9.9" "h10"
        (record_seq "9.9.9.9"
          [(1, "h"), (2, "h"), (3, "h"), (4, "h"), (5, "h"), (6, "h"), (7, "h"),
           (8, "h"), (9, "h")] initState)).1 = true ∧
     (record_violation 10 "9.9.9.9" "h10"
        (record_seq "9.9.9.9"
          [(1, "h"), (2, "h"), (3, "h"), (4, "h"), (5, "h"), (6, "h"), (7, "h"),
           (8, "h"), (9, "h")] initState)).2.blocked_ips "9.9.9.9" =
       some (10 + BLOCK_DURATION) ∧
     (is_ip_blocked 3000 "9.9.9.9"
        (record_violation 10 "9.9.9.9" "h10"
          (record_seq "9.9.9.9"
            [(1, "h"), (2, "h"), (3, "h"), (4, "h"), (5, "h"), (6, "h"),
             (7, "h"), (8, "h"), (9, "h")] initState)).2).1 = true ∧
     (is_ip_blocked 3000 "9.9.9.9"
        (record_violation 10 "9.9.9.9" "h10"
          (record_seq "9.9.9.9"
            [(1, "h"), (2, "h"), (3, "h"), (4, "h"), (5, "h"), (6, "h"),
             (7, "h"), (8, "h"), (9, "h")] initState)).2).2 =
       (record_violation 10 "9.9.9.9" "h10"
          (record_seq "9.9.9.9"
            [(1, "h"), (2, "h"), (3, "h"), (4, "h"), (5, "h"), (6, "h"),
             (7, "h"), (8, "h"), (9, "h")] initState)).2 ∧
     (is_ip_blocked 3610 "9.9.9.9"
        (record_violation 10 "9.9.9.9" "h10"
          (record_seq "9.9.9.9"
            [(1, "h"), (2, "h"), (3, "h"), (4, "h"), (5, "h"), (6, "h"),
             (7, "h"), (8, "h"), (9, "h")] initState)).2).1 = false ∧
     (is_ip_blocked 3610 "9.9.9.9"
        (record_violation 10 "9.9.9.9" "h10"
          (record_seq "9.9.9.9"
            [(1, "h"), (2, "h"), (3, "h"), (4, "h"), (5, "h"), (6, "h"),
             (7, "h"), (8, "h"), (9, "h")] initState)).2).2.violation_counts
       "9.9.9.9" = 0 ∧
     (is_ip_blocked 3610 "9.9.9.9"
        (record_violation 10 "9.9.9.9" "h10"
          (record_seq "9.9.9.9"
            [(1, "h"), (2, "h"), (3, "h"), (4, "h"), (5, "h"), (6, "h"),
             (7, "h"), (8, "h"), (9, "h")] initState)).2).2.blocked_ips
       "9.9.9.9" = none) :=
  ⟨⟨rfl, rfl, by decide, by decide, by decide⟩,
   c1_threshold_block_lifecycle "9.9.9.9" initState
     [(1, "h"), (2, "h"), (3, "h"), (4, "h"), (5, "h"), (6, "h"), (7, "h"),
      (8, "h"), (9, "h")] "h10" 10 3000 3610 rfl rfl (by decide) (by decide)
     (by decide)⟩

theorem require_api_key_missing (now : Nat) (ip : String)
    (f : SecState → Response × SecState) (s : SecState)
    (ak vk : Option String) (h : pyFalsy ak = true) :
    require_api_key true ak vk now ip f s =
      ({ status := 401
         body := [("error", "API key required"), ("code", "MISSING_KEY")]
         headers := fun _ => none },
       (record_violation now ip "Missing API key" s).2) := by
  unfold require_api_key
  simp only [Bool.not_true, Bool.false_eq_true, if_false, h, if_true]

theorem require_api_key_invalid (now : Nat) (ip : String)
    (f : SecState → Response × SecState) (s : SecState)
    (ak vk : Option String) (h1 : pyFalsy ak = false)
    (h2 : (pyFalsy vk
      || !(constant_time_compare (ak.getD "") (vk.getD ""))) = true) :
    require_api_key true ak vk now ip f s =
      ({ status := 401
         body := [("error", "Invalid API key"), ("code", "INVALID_KEY")]
         headers := fun _ => none },
       (record_violation now ip "Invalid API key" s).2) := by
  unfold require_api_key
  simp only [Bool.not_true, Bool.false_eq_true, if_false, h1, h2, if_true]

theorem require_api_key_pass (now : Nat) (ip : String)
    (f : SecState → Response × SecState) (s : SecState)
    (ak vk : Option String) (h1 : pyFalsy ak = false)
    (h2 : (pyFalsy vk
      || !(constant_time_compare (ak.getD "") (vk.getD ""))) = false) :
    require_api_key true ak vk now ip f s = f s := by
  unfold require_api_key
  simp only [Bool.not_true, Bool.false_eq_true, if_false, h1, h2]

/-- C4 counterexample: with enforcement enabled and a secret configured, a
request whose API-key header is present with the empty-string value carries a
key that does not match the secret, yet is rejected with code `MISSING_KEY`
rather than `INVALID_KEY`: the validator's Python truthiness test conflates
an empty header value with an absent header. -/
theorem c4_counterexample :
    (require_api_key true (some "") (some "s3cret") 0 "1.2.3.4"
        (fun st => ({ status := 200, body := [], headers := fun _ => none }, st))
        initState).1.body.lookup "code" = some "MISSING_KEY" ∧
    (require_api_key true (some "") (some "s3cret") 0 "1.2.3.4"
        (fun st => ({ status := 200, body := [], headers := fun _ => none }, st))
        initState).1.body.lookup "code" ≠ some "INVALID_KEY" ∧
    ("" : String) ≠ "s3cret" := by
  exact ⟨rfl, by decide, by decide⟩

/-- C4 amended: with enforcement enabled, an absent API-key header — or one
supplied with the empty-string value, which the validator treats the same
way — is rejected 401 with code `MISSING_KEY` and one recorded violation; a
non-empty key different from the configured secret is rejected 401 with code
`INVALID_KEY` and one recorded violation; the correct (non-empty) key passes
the request to the route handler on the unchanged state; with enforcement
disabled the validator passes every request unchanged. -/
theorem c4_api_key_validator (now : Nat) (ip : String)
    (f : SecState → Response × SecState) (s : SecState)
    (secret k : String) (hs : secret ≠ "") (hk : k ≠ "") (hne : k ≠ secret)
    (ak vk : Option String) :
    require_api_key false ak vk now ip f s = f s ∧
    ((require_api_key true none (some secret) now ip f s).1.status = 401 ∧
     (require_api_key true none (some secret) now ip f s).1.body.lookup "code" =
       some "MISSING_KEY" ∧
     (require_api_key true none (some secret) now ip f s).2.violation_counts ip =
       s.violation_counts ip + 1) ∧
    ((require_api_key true (some "") (some secret) now ip f s).1.status = 401 ∧
     (require_api_key true (some "") (some secret) now ip f s).1.body.lookup
       "code" = some "MISSING_KEY" ∧
     (require_api_key true (some "") (some secret) now ip f s).2.violation_counts
       ip = s.violation_counts ip + 1) ∧
    ((require_api_key true (some k) (some secret) now ip f s).1.status = 401 ∧
     (require_api_key true (some k) (some secret) now ip f s).1.body.lookup
       "code" = some "INVALID_KEY" ∧
     (require_api_key true (some k) (some secret) now ip f s).2.violation_counts
       ip = s.violation_counts ip + 1) ∧
    require_api_key true (some secret) (some secret) now ip f s = f s := by
  have hkb : pyFalsy (some k) = false := beq_eq_false_iff_ne.mpr hk
  have hsb : pyFalsy (some secret) = false := beq_eq_false_iff_ne.mpr hs
  have hknes : constant_time_compare k secret = false :=
    beq_eq_false_iff_ne.mpr hne
  have hcc : constant_time_compare secret secret = true := beq_self_eq_true secret
  have hinv : (pyFalsy (some secret)
      || !(constant_time_compare ((some k).getD "")
            ((some secret).getD ""))) = true := by
    show (pyFalsy (some secret) || !(constant_time_compare k secret)) = true
    rw [hknes, hsb]; rfl
  have hpass : (pyFalsy (some secret)
      || !(constant_time_compare ((some secret).getD "")
            ((some secret).getD ""))) = false := by
    show (pyFalsy (some secret) || !(constant_time_compare secret secret)) = false
    rw [hcc, hsb]; rfl
  refine ⟨rfl, ?_, ?_, ?_, ?_⟩
  · rw [require_api_key_missing now ip f s none (some secret) rfl]
    exact ⟨rfl, rfl, record_violation_count now ip _ _⟩
  · rw [require_api_key_missing now ip f s (some "") (some secret) rfl]
    exact ⟨rfl, rfl, record_violation_count now ip _ _⟩
  · rw [require_api_key_invalid now ip f s (some k) (some secret) hkb hinv]
    exact ⟨rfl, rfl, record_violation_count now ip _ _⟩
  · exact require_api_key_pass now ip f s (some secret) (some secret) hsb hpass

theorem c4_api_key_validator_witness :
    (("s3cret" : String) ≠ "" ∧ ("wrong" : String) ≠ "" ∧
     ("wrong" : String) ≠ "s3cret") ∧
    (require_api_key false none none 7 "1.2.3.4"
        (fun st => ({ status := 200, body := [], headers := fun _ => none }, st))
        initState =
       (fun st => ({ status := 200, body := [], headers := fun _ => none }, st))
         initState ∧
     ((require_api_key true none (some "s3cret") 7 "1.2.3.4"
          (fun st => ({ status := 200, body := [], headers := fun _ => none }, st))
          initState).1.status = 401 ∧
      (require_api_key true none (some "s3cret") 7 "1.2.3.4"
          (fun st => ({ status := 200, body := [], headers := fun _ => none }, st))
          initState).1.body.lookup "code" = some "MISSING_KEY" ∧
      (require_api_key true none (some "s3cret") 7 "1.2.3.4"
          (fun st => ({ status := 200, body := [], headers := fun _ => none }, st))
          initState).2.violation_counts "1.2.3.4" =
        initState.violation_counts "1.2.3.4" + 1) ∧
     ((require_api_key true (some "") (some "s3cret") 7 "1.2.3.4"
          (fun st => ({ status := 200, body := [], headers := fun _ => none }, st))
          initState).1.status = 401 ∧
      (require_api_key true (some "") (some "s3cret") 7 "1.2.3.4"
          (fun st => ({ status := 200, body := [], headers := fun _ => none }, st))
          initState).1.body.lookup "code" = some "MISSING_KEY" ∧
      (require_api_key true (some "") (some "s3cret") 7 "1.2.3.4"
          (fun st => ({ status := 200, body := [], headers := fun _ => none }, st))
          initState).2.violation_counts "1.2.3.4" =
        initState.violation_counts "1.2.3.4" + 1) ∧
     ((require_api_key true (some "wrong") (some "s3cret") 7 "1.2.3.4"
          (fun st => ({ status := 200, body := [], headers := fun _ => none }, st))
          initState).1.status = 401 ∧
      (require_api_key true (some "wrong") (some "s3cret") 7 "1.2.3.4"
          (fun st => ({ status := 200, body := [], headers := fun _ => none }, st))
          initState).1.body.lookup "code" = some "INVALID_KEY" ∧
      (require_api_key true (some "wrong") (some "s3cret") 7 "1.2.3.4"
          (fun st => ({ status := 200, body := [], headers := fun _ => none }, st))
          initState).2.violation_counts "1.2.3.4" =
        initState.violation_counts "1.2.3.4" + 1) ∧
     require_api_key true (some "s3cret") (some "s3cret") 7 "1.2.3.4"
        (fun st => ({ status := 200, body := [], headers := fun _ => none }, st))
        initState =
       (fun st => ({ status := 200, body := [], headers := fun _ => none }, st))
         initState) :=
  ⟨⟨by decide, by decide, by decide⟩,
   c4_api_key_validator 7 "1.2.3.4"
     (fun st => ({ status := 200, body := [], headers := fun _ => none }, st))
     initState "s3cret" "wrong" (by decide) (by decide) (by decide) none none⟩

/-- C8 counterexample: a credential rejection on the internal diagnostics
route `/api/internal/security/stats` is a plain 401 with no machine-readable
`code` field and records no violation — the state comes back untouched —
refuting the claim that every credential rejection on a protected route
carries a specific code and records a violation. -/
theorem c8_counterexample :
    (security_stats (some "wrongkey") (some "internal") initState).1.status =
      401 ∧
    (security_stats (some "wrongkey") (some "internal") initState).1.body.lookup
      "code" = none ∧
    (security_stats (some "wrongkey") (some "internal") initState).2 =
      initState := by
  exact ⟨rfl, rfl, rfl⟩

/-- C8 amended: rejections by the API-key validator on protected routes are
401 with a specific machine-readable code (`MISSING_KEY` for an absent
header, `INVALID_KEY` for a non-empty non-matching key) and record one
violation; the internal diagnostics route, by contrast, rejects bad or
missing internal credentials with a plain 401 that carries no code and
records no violation (its state is returned unchanged). -/
theorem c8_credential_rejections (now : Nat) (ip : String)
    (f : SecState → Response × SecState) (s : SecState)
    (secret k : String) (hk : k ≠ "") (hne : k ≠ secret)
    (ik vk : Option String)
    (hrej : (pyFalsy vk
      || !(constant_time_compare (ik.getD "") (vk.getD ""))) = true) :
    ((require_api_key true none (some secret) now ip f s).1.status = 401 ∧
     (require_api_key true none (some secret) now ip f s).1.body.lookup "code" =
       some "MISSING_KEY" ∧
     (require_api_key true none (some secret) now ip f s).2.violation_counts ip =
       s.violation_counts ip + 1) ∧
    ((require_api_key true (some k) (some secret) now ip f s).1.status = 401 ∧
     (require_api_key true (some k) (some secret) now ip f s).1.body.lookup
       "code" = some "INVALID_KEY" ∧
     (require_api_key true (some k) (some secret) now ip f s).2.violation_counts
       ip = s.violation_counts ip + 1) ∧
    ((security_stats ik vk s).1.status = 401 ∧
     (security_stats ik vk s).1.body.lookup "code" = none ∧
     (security_stats ik vk s).2 = s) := by
  have hkb : pyFalsy (some k) = false := beq_eq_false_iff_ne.mpr hk
  have hknes : constant_time_compare k secret = false :=
    beq_eq_false_iff_ne.mpr hne
  have hinv : (pyFalsy (some secret)
      || !(constant_time_compare ((some k).getD "")
            ((some secret).getD ""))) = true := by
    show (pyFalsy (some secret) || !(constant_time_compare k secret)) = true
    rw [hknes, Bool.not_false, Bool.or_true]
  refine ⟨?_, ?_, ?_⟩
  · rw [require_api_key_missing now ip f s none (some secret) rfl]
    exact ⟨rfl, rfl, record_violation_count now ip _ _⟩
  · rw [require_api_key_invalid now ip f s (some k) (some secret) hkb hinv]
    exact ⟨rfl, rfl, record_violation_count now ip _ _⟩
  · unfold security_stats
    rw [if_pos hrej]
    exact ⟨rfl, rfl, rfl⟩

theorem c8_credential_rejections_witness :
    (("wrong" : String) ≠ "" ∧ ("wrong" : String) ≠ "s3cret" ∧
     (pyFalsy (some "internal")
       || !(constant_time_compare ((some "bad").getD "")
              ((some "internal").getD ""))) = true) ∧
    (((require_api_key true none (some "s3cret") 9 "1.2.3.4"
          (fun st => ({ status := 200, body := [], headers := fun _ => none }, st))
          initState).1.status = 401 ∧
      (require_api_key true none (some "s3cret") 9 "1.2.3.4"
          (fun st => ({ status := 200, body := [], headers := fun _ => none }, st))
          initState).1.body.lookup "code" = some "MISSING_KEY" ∧
      (require_api_key true none (some "s3cret") 9 "1.2.3.4"
          (fun st => ({ status := 200, body := [], headers := fun _ => none }, st))
          initState).2.violation_counts "1.2.3.4" =
        initState.violation_counts "1.2.3.4" + 1) ∧
     ((require_api_key true (some "wrong") (some "s3cret") 9 "1.2.3.4"
          (fun st => ({ status := 200, body := [], headers := fun _ => none }, st))
          initState).1.status = 401 ∧
      (require_api_key true (some "wrong") (some "s3cret") 9 "1.2.3.4"
          (fun st => ({ status := 200, body := [], headers := fun _ => none }, st))
          initState).1.body.lookup "code" = some "INVALID_KEY" ∧
      (require_api_key true (some "wrong") (some "s3cret") 9 "1.2.3.4"
          (fun st => ({ status := 200, body := [], headers := fun _ => none }, st))
          initState).2.violation_counts "1.2.3.4" =
        initState.violation_counts "1.2.3.4" + 1) ∧
     ((security_stats (some "bad") (some "internal") initState).1.status = 401 ∧
      (security_stats (some "bad") (some "internal") initState).1.body.lookup
        "code" = none ∧
      (security_stats (some "bad") (some "internal") initState).2 = initState)) :=
  ⟨⟨by decide, by decide, by decide⟩,
   c8_credential_rejections 9 "1.2.3.4"
     (fun st => ({ status := 200, body := [], headers := fun _ => none }, st))
     initState "s3cret" "wrong" (by decide) (by decide) (some "bad")
     (some "internal") (by decide)⟩

/-- C10 counterexample: with enforcement enabled and no secret configured, a
request supplying the API-key header with the empty-string value is rejected
with code `MISSING_KEY`, not `INVALID_KEY` as the claim states for every
supplied header value. -/
theorem c10_counterexample :
    (require_api_key true (some "") none 0 "2.2.2.2"
        (fun st => ({ status := 200, body := [], headers := fun _ => none }, st))
        initState).1.body.lookup "code" = some "MISSING_KEY" ∧
    (require_api_key true (some "") none 0 "2.2.2.2"
        (fun st => ({ status := 200, body := [], headers := fun _ => none }, st))
        initState).1.body.lookup "code" ≠ some "INVALID_KEY" := by
  exact ⟨rfl, by decide⟩

/-- C10 amended: with enforcement enabled and the configured secret unset (or
empty), the validator fails closed: a request supplying any non-empty API-key
header value is rejected 401 with code `INVALID_KEY` and one recorded
violation, one supplying the empty value is rejected 401 with code
`MISSING_KEY` and one recorded violation, and every request — whatever its
header — receives a 401 computed without ever invoking the route handler. -/
theorem c10_fails_closed (now : Nat) (ip : String)
    (f f2 : SecState → Response × SecState) (s : SecState)
    (vk : Option String) (hvk : pyFalsy vk = true)
    (v : String) (hv : v ≠ "") (ak : Option String) :
    ((require_api_key true (some v) vk now ip f s).1.status = 401 ∧
     (require_api_key true (some v) vk now ip f s).1.body.lookup "code" =
       some "INVALID_KEY" ∧
     (require_api_key true (some v) vk now ip f s).2.violation_counts ip =
       s.violation_counts ip + 1) ∧
    ((require_api_key true (some "") vk now ip f s).1.status = 401 ∧
     (require_api_key true (some "") vk now ip f s).1.body.lookup "code" =
       some "MISSING_KEY" ∧
     (require_api_key true (some "") vk now ip f s).2.violation_counts ip =
       s.violation_counts ip + 1) ∧
    ((require_api_key true ak vk now ip f s).1.status = 401 ∧
     require_api_key true ak vk now ip f2 s =
       require_api_key true ak vk now ip f s) := by
  have hvb : pyFalsy (some v) = false := beq_eq_false_iff_ne.mpr hv
  have hinvv : (pyFalsy vk
      || !(constant_time_compare ((some v).getD "") (vk.getD ""))) = true := by
    rw [hvk, Bool.true_or]
  refine ⟨?_, ?_, ?_⟩
  · rw [require_api_key_invalid now ip f s (some v) vk hvb hinvv]
    exact ⟨rfl, rfl, record_violation_count now ip _ _⟩
  · rw [require_api_key_missing now ip f s (some "") vk rfl]
    exact ⟨rfl, rfl, record_violation_count now ip _ _⟩
  · cases ak with
    | none =>
        rw [require_api_key_missing now ip f s none vk rfl,
          require_api_key_missing now ip f2 s none vk rfl]
        exact ⟨rfl, rfl⟩
    | some a =>
        by_cases ha : a = ""
        · subst ha
          rw [require_api_key_missing now ip f s (some "") vk rfl,
            require_api_key_missing now ip f2 s (some "") vk rfl]
          exact ⟨rfl, rfl⟩
        · have hab : pyFalsy (some a) = false := beq_eq_false_iff_ne.mpr ha
          have hinva : (pyFalsy vk
              || !(constant_time_compare ((some a).getD "") (vk.getD ""))) =
              true := by
            rw [hvk, Bool.true_or]
          rw [require_api_key_invalid now ip f s (some a) vk hab hinva,
            require_api_key_invalid now ip f2 s (some a) vk hab hinva]
          exact ⟨rfl, rfl⟩

theorem c10_fails_closed_witness :
    (pyFalsy none = true ∧ ("whatever" : String) ≠ "") ∧
    (((require_api_key true (some "whatever") none 4 "2.2.2.2"
          (fun st => ({ status := 200, body := [], headers := fun _ => none }, st))
          initState).1.status = 401 ∧
      (require_api_key true (some "whatever") none 4 "2.2.2.2"
          (fun st => ({ status := 200, body := [], headers := fun _ => none }, st))
          initState).1.body.lookup "code" = some "INVALID_KEY" ∧
      (require_api_key true (some "whatever") none 4 "2.2.2.2"
          (fun st => ({ status := 200, body := [], headers := fun _ => none }, st))
          initState).2.violation_counts "2.2.2.2" =
        initState.violation_counts "2.2.2.2" + 1) ∧
     ((require_api_key true (some "") none 4 "2.2.2.2"
          (fun st => ({ status := 200, body := [], headers := fun _ => none }, st))
          initState).1.status = 401 ∧
      (require_api_key true (some "") none 4 "2.2.2.2"
          (fun st => ({ status := 200, body := [], headers := fun _ => none }, st))
          initState).1.body.lookup "code" = some "MISSING_KEY" ∧
      (require_api_key true (some "") none 4 "2.2.2.2"
          (fun st => ({ status := 200, body := [], headers := fun _ => none }, st))
          initState).2.violation_counts "2.2.2.2" =
        initState.violation_counts "2.2.2.2" + 1) ∧
     ((require_api_key true (some "zzz") none 4 "2.2.2.2"
          (fun st => ({ status := 200, body := [], headers := fun _ => none }, st))
          initState).1.status = 401 ∧
      require_api_key true (some "zzz") none 4 "2.2.2.2"
          (fun st => ({ status := 500, body := [], headers := fun _ => none }, st))
          initState =
        require_api_key true (some "zzz") none 4 "2.2.2.2"
          (fun st => ({ status := 200, body := [], headers := fun _ => none }, st))
          initState)) :=
  ⟨⟨by decide, by decide⟩,
   c10_fails_closed 4 "2.2.2.2"
     (fun st => ({ status := 200, body := [], headers := fun _ => none }, st))
     (fun st => ({ status := 500, body := [], headers := fun _ => none }, st))
     initState none (by decide) "whatever" (by decide) (some "zzz")⟩

end B0B
